import Mathlib

/-!
# Verification of the DiffRhythm-gui job orchestration core (`app.py`)

This file gives a shallow embedding in Lean 4 of the job-orchestration
subsystem of the repository's single source file `app.py`: the Job Gate
(the global `RUN_LOCK`), the Command Builder (`build_infer_cmd`), the
Process Runner / Artifact Relocator (`run_infer`), the History Ledger
(`read_history` / `write_history`), the Path Sandbox (`project_path` /
`project_path_no_create`), and the two generation endpoints
(`api_generate`, `api_generate_json`).

Modelling conventions:
* Python strings are Lean `String`s; filesystem paths are lists of path
  components (`List String`) measured from the filesystem root.
* Python `dict.get(k)` / optional multipart form fields are `Option`s;
  Python truthiness of an optional string is `pyTruthyStr` (absent and
  `""` are falsy).  `Path` values that the handlers store in `args_map`
  are modelled as the corresponding path strings (the handlers only ever
  store real, nonempty paths there).
* A Python form/JSON field that is converted with `int(...)`/`float(...)`
  is modelled as `Option (Option _)`: `none` = absent (the config default
  is used), `some none` = present but unparsable (raises `ValueError`),
  `some (some v)` = parses to `v`.
* Python `float` values that flow through the GUI are plain decimal
  literals; they are modelled exactly as decimals (`Dec`), and
  `Dec.str` models `str(float(x))`, which always renders a decimal
  point (`"3.8"`, `"56.0"`), never an integer-truncated form.
* Effects are explicit state passing over `AppState`; the "external
  world" (subprocess exit codes, files the external tool writes, the
  wall clock, uuid tokens, network availability) is an `ExtEnv` record.
  Unexpected runtime faults (e.g. `subprocess.run` raising because the
  interpreter is missing) are injected through `ExtEnv.spawnFault` /
  `ExtEnv.urlFetchOk` and surface as the `PyExc.other` exception, which
  the handlers' `except Exception` arm converts to an HTTP 500 — while
  the `finally` arm still releases the lock.
* Process stdout/log capture, environment-variable plumbing and
  directory `mkdir` side effects of `project_path` are not tracked in
  the state: no claim under verification depends on them.
-/

namespace DiffRhythmGui

/-! ## Python string primitives (character-list level, fully computable) -/

/-- The whitespace characters removed by Python's `str.strip()`. -/
def pyIsSpace (c : Char) : Bool :=
  c = ' ' || c = '\t' || c = '\n' || c = '\r' || c = '\x0b' || c = '\x0c'

/-- Python `str.strip()` on a character list. -/
def pyStripChars (cs : List Char) : List Char :=
  ((cs.dropWhile pyIsSpace).reverse.dropWhile pyIsSpace).reverse

/-- Python `str.strip()` on a string. -/
def pyStrip (s : String) : String :=
  String.mk (pyStripChars s.data)

/-- Python `s.replace("..", "")`: removes every non-overlapping occurrence
of `".."`, scanning left to right.  (Used by the Path Sandbox.) -/
def removeDotDot : List Char → List Char
  | '.' :: '.' :: rest => removeDotDot rest
  | c :: rest => c :: removeDotDot rest
  | [] => []

/-- Python `s.replace("\\", "/")` (single-character pattern and
replacement, hence a plain map). -/
def backslashToSlash (cs : List Char) : List Char :=
  cs.map fun c => if c = '\\' then '/' else c

/-- Python `s.strip("/")`: drop leading and trailing `'/'` characters. -/
def stripSlashChars (cs : List Char) : List Char :=
  ((cs.dropWhile (· = '/')).reverse.dropWhile (· = '/')).reverse

/-- Split a character list on `'/'` (the separators themselves are
dropped; empty segments are kept, mirroring `"a//b".split("/")`). -/
def splitOnSlash (cs : List Char) : List (List Char) :=
  cs.foldr
    (fun c acc =>
      if c = '/' then [] :: acc
      else
        match acc with
        | [] => [[c]]
        | a :: as => (c :: a) :: as)
    [[]]

/-- Truthiness of an optional Python string (`None` and `""` are falsy). -/
def pyTruthyStr (o : Option String) : Bool :=
  o.getD "" ≠ ""

/-- Python `a or b` for optional strings: the first truthy value wins. -/
def pyOrStr (o : Option String) (dflt : String) : String :=
  if pyTruthyStr o then o.getD "" else dflt

/-! ## Decimal values: the model of Python `float`s in this GUI -/

/-- A decimal number `mant / 10 ^ exp`.  All `float`s handled by the GUI
(`cfg_strength` presets such as `3.5`, `3.8`, `4.0`) are exact decimals,
so this represents them without loss. -/
structure Dec where
  mant : Int
  exp : Nat
deriving DecidableEq, Repr

/-- Models Python `str(float(x))` for a decimal `x`: it always renders a
decimal point — `str(float(3.8)) = "3.8"`, `str(float(56)) = "56.0"` —
never an integer-truncated form. -/
def Dec.str (d : Dec) : String :=
  if d.exp = 0 then
    String.mk ((toString d.mant).data ++ ['.', '0'])
  else
    let n := d.mant.natAbs
    let p := 10 ^ d.exp
    let ip := Nat.toDigits 10 (n / p)
    let fpRaw := Nat.toDigits 10 (n % p)
    let fp := List.replicate (d.exp - fpRaw.length) '0' ++ fpRaw
    String.mk ((if d.mant < 0 then ['-'] else []) ++ ip ++ ['.'] ++ fp)

/-! ## Timestamps: the model of `timestamp_str` (`app.py` line 187) -/

/-- A broken-down local time, as produced by `datetime.now()`. -/
structure Timestamp where
  year : Nat
  month : Nat
  day : Nat
  hour : Nat
  minute : Nat
  second : Nat
deriving DecidableEq, Repr

/-- Zero-padded two-digit field, as rendered by `strftime` (`%m`, `%d`,
`%H`, `%M`, `%S`; the fields are below 100 for any real datetime). -/
def pad2 (n : Nat) : List Char :=
  [Nat.digitChar (n / 10 % 10), Nat.digitChar (n % 10)]

/-- Zero-padded four-digit year as rendered by `strftime`'s `%Y`
(years of interest are below 10000). -/
def pad4 (n : Nat) : List Char :=
  [Nat.digitChar (n / 1000 % 10), Nat.digitChar (n / 100 % 10),
   Nat.digitChar (n / 10 % 10), Nat.digitChar (n % 10)]

/-- `timestamp_str()`: `datetime.now().strftime("%Y%m%d-%H%M%S")`. -/
def timestamp_str (t : Timestamp) : String :=
  String.mk (pad4 t.year ++ pad2 t.month ++ pad2 t.day ++ ['-'] ++
             pad2 t.hour ++ pad2 t.minute ++ pad2 t.second)

/-! ## Path Sandbox: `project_path` / `project_path_no_create`
(`app.py` lines 198–217) -/

/-- `Path.resolve()` applied to `base / comps`: empty and `"."`
components disappear, `".."` pops one component (never above the
filesystem root).  Symlinks are not modelled (none are created by the
application). -/
def resolveComponents (base : List String) (comps : List String) : List String :=
  comps.foldl
    (fun acc c =>
      if c = "" || c = "." then acc
      else if c = ".." then acc.dropLast
      else acc ++ [c])
    base

/-- `project_path(project, cfg)` (`app.py` 198–207), minus its `mkdir`
side effects (untracked, see the header).  `base` is the resolved
configured base directory.  A `None` project argument is passed by
callers as `""` (both are falsy, so both fall back to `"Default"`). -/
def project_path (base : List String) (project : String) : Except String (List String) :=
  let raw := if project = "" then "Default" else project
  let s1 := pyStripChars raw.data
  let s2 := removeDotDot s1
  let s3 := backslashToSlash s2
  let s4 := stripSlashChars s3
  let safe := if s4 = [] then "Default".data else s4
  let comps := (splitOnSlash safe).map fun l => String.mk l
  let p := resolveComponents base comps
  if base.isPrefixOf p then Except.ok p else Except.error "Invalid project path"

/-- `project_path_no_create(project, cfg)` (`app.py` 209–217): same path
resolution and confinement check as `project_path`, but with no
directory creation (which is untracked here anyway). -/
def project_path_no_create (base : List String) (project : String) : Except String (List String) :=
  let raw := if project = "" then "Default" else project
  let s1 := pyStripChars raw.data
  let s2 := removeDotDot s1
  let s3 := backslashToSlash s2
  let s4 := stripSlashChars s3
  let safe := if s4 = [] then "Default".data else s4
  let comps := (splitOnSlash safe).map fun l => String.mk l
  let p := resolveComponents base comps
  if base.isPrefixOf p then Except.ok p else Except.error "Invalid project path"

/-! ## History Ledger: `read_history` / `write_history`
(`app.py` lines 229–242) -/

/-- One record of `history.json`, as assembled by the handlers
(`app.py` 729–742 and 838–851).  JSON serialization is assumed faithful
(Python's `json.dumps`/`json.loads` round-trips these values). -/
structure HistoryEntry where
  ts : Int
  file : String
  mode : String
  ref_mode : String
  prompt : Option String
  ref_audio : Option String
  audio_length : Int
  repo_id : String
  steps : Int
  cfg_strength : Dec
  chunked : Bool
  batch_infer_num : Int
deriving DecidableEq, Repr

/-- The on-disk state of one project's `history.json`: missing file,
unparsable file, or a stored list of entries. -/
inductive LedgerFile
  | missing
  | corrupt
  | stored (entries : List HistoryEntry)
deriving DecidableEq, Repr

/-- `read_history(p)` (`app.py` 232–239): missing or corrupt files read
as the empty sequence. -/
def read_history : LedgerFile → List HistoryEntry
  | .missing => []
  | .corrupt => []
  | .stored entries => entries

/-- `write_history(p, items)` (`app.py` 241–242): rewrites the file in
full with exactly `items`. -/
def write_history (items : List HistoryEntry) : LedgerFile :=
  LedgerFile.stored items

/-- The inline append performed by both generation handlers
(`app.py` 728/743–744 and 837/852–853):
`h = read_history(p); h.append(entry); write_history(p, h)`. -/
def append_history (f : LedgerFile) (e : HistoryEntry) : LedgerFile :=
  write_history (read_history f ++ [e])

/-! ## The write discipline of `write_history`, at filesystem-operation
granularity (for the atomic-replacement question) -/

/-- The filesystem write operations relevant to rewriting a file. -/
inductive FsWriteOp
  | truncateInPlace (path : List String) (items : List HistoryEntry)
  | writeNewFile (path : List String) (items : List HistoryEntry)
  | atomicReplace (src : List String) (dst : List String)
deriving DecidableEq, Repr

/-- The exact operation trace of `write_history(p, items)` (`app.py`
241–242): `history_file(p).write_text(...)`, i.e. `open(path, "w")`
followed by a write — a truncating in-place rewrite of
`p / "history.json"`.  No temporary file and no `os.replace`/`rename`
appears anywhere in `write_history`. -/
def write_history_ops (p : List String) (items : List HistoryEntry) : List FsWriteOp :=
  [FsWriteOp.truncateInPlace (p ++ ["history.json"]) items]

/-! ## Command Builder: `build_infer_cmd` (`app.py` lines 301–328) -/

/-- The `args_map` dict assembled by the handlers (`app.py` 705–722 and
817–832).  Every field is optional, mirroring `dict.get`; path-valued
entries are path strings. -/
structure ArgsMap where
  project : Option String := none
  mode : Option String := none
  repo_id : Option String := none
  audio_length : Option Int := none
  batch_infer_num : Option Int := none
  use_chunked : Option Bool := none
  steps : Option Int := none
  cfg_strength : Option Dec := none
  ref_prompt : Option String := none
  ref_audio_path : Option String := none
  lrc_path : Option String := none
deriving DecidableEq, Repr

/-- `build_infer_cmd(args_map, tmp_outdir)` (`app.py` 301–328).
`pythonBin` and `inferScript` stand for `sys_executable()` and
`str(INFER_SCRIPT)`, which depend only on the host environment. -/
def build_infer_cmd (pythonBin inferScript : String) (a : ArgsMap) (tmp_outdir : String) :
    List String :=
  [pythonBin, inferScript]
  ++ ["--output-dir", tmp_outdir]
  ++ ["--audio-length", toString (a.audio_length.getD 95)]
  ++ ["--repo-id", a.repo_id.getD "ASLP-lab/DiffRhythm-1_2"]
  ++ (if pyTruthyStr a.ref_audio_path then ["--ref-audio-path", a.ref_audio_path.getD ""]
      else if pyTruthyStr a.ref_prompt then ["--ref-prompt", a.ref_prompt.getD ""]
      else [])
  ++ (if pyTruthyStr a.lrc_path then ["--lrc-path", a.lrc_path.getD ""] else [])
  ++ (if a.use_chunked.getD false then ["--chunked"] else [])
  ++ ["--batch-infer-num", toString (a.batch_infer_num.getD 1)]
  ++ (match a.steps with
      | some s => ["--steps", toString s]
      | none => [])
  ++ (match a.cfg_strength with
      | some c => ["--cfg-strength", Dec.str c]
      | none => [])

/-! ## Process result and Artifact Relocator: the tail of `run_infer`
(`app.py` lines 377–403) -/

/-- The dict returned by `run_infer` (`app.py` 397–403), minus the
`logs` field (untracked, see the header). -/
structure RunResult where
  ok : Bool
  returncode : Int
  outfile : String
  outfile_name : String
deriving DecidableEq, Repr

/-- Join absolute path components back into a path string. -/
def joinPath (comps : List String) : String :=
  "/" ++ String.intercalate "/" comps

/-- The source file chosen by the relocation code (`app.py` 380–384):
`output.wav` if present, else the first `*.wav` match of the scratch
directory (`scratchFiles` is the directory listing in glob order). -/
def find_src (scratchFiles : List String) : Option String :=
  if scratchFiles.contains "output.wav" then some "output.wav"
  else
    match scratchFiles.filter (fun f => f.endsWith ".wav") with
    | [] => none
    | f :: _ => some f

/-- The relocation + result-assembly tail of `run_infer` (`app.py`
377–403), as a pure function of the scratch directory listing, the
process exit code, the resolved project directory and its current file
list, and the current wall-clock time.  Returns the `run_infer` result
dict, the project directory's file list afterward, and whether the
scratch directory was removed.  (`shutil.move` onto an existing
destination would overwrite; timestamped destination names are taken as
fresh, so the move is modelled as an append.) -/
def run_infer_fs (scratchFiles : List String) (returncode : Int)
    (projectDir : List String) (projectFilesBefore : List String) (now : Timestamp) :
    RunResult × List String × Bool :=
  let final_name := "output-" ++ timestamp_str now ++ ".wav"
  match find_src scratchFiles with
  | some _ =>
      ({ ok := returncode == 0
         returncode := returncode
         outfile := joinPath (projectDir ++ [final_name])
         outfile_name := final_name },
       projectFilesBefore ++ [final_name], true)
  | none =>
      ({ ok := false
         returncode := returncode
         outfile := ""
         outfile_name := "" },
       projectFilesBefore, true)

/-! ## Application state, configuration, and the external world -/

/-- The effective configuration, as produced by `load_config()`
(`app.py` 176–182; a missing or corrupt `config.json` yields
`DEFAULT_CONFIG`, so callers always see a fully populated record).
`base` is the resolved `base_dir` as path components. -/
structure Config where
  repo_id : String
  audio_length : Int
  batch_infer_num : Int
  use_chunked : Bool
  steps : Int
  cfg_strength : Dec
  cuda_visible_devices : String
  base : List String
  active_project : String
deriving DecidableEq, Repr

/-- The mutable state a generation request can observe or change:
the Job Gate (`RUN_LOCK`), the configuration, each project's history
ledger and artifact files (keyed by project directory), and counters of
spawned external processes, created scratch directories, and files
saved into `uploads/`. -/
structure AppState where
  lockHeld : Bool
  config : Config
  ledgers : List (List String × LedgerFile)
  projectFiles : List (List String × List String)
  processes : Nat
  scratchCreated : Nat
  uploads : Nat
deriving DecidableEq, Repr

/-- Association-list lookup with a default (projects absent from the
list have no files / no history file). -/
def assocGet {β : Type} (l : List (List String × β)) (k : List String) (dflt : β) : β :=
  match l.find? (fun kv => kv.1 == k) with
  | some kv => kv.2
  | none => dflt

/-- Association-list update (insert or overwrite). -/
def assocSet {β : Type} (l : List (List String × β)) (k : List String) (v : β) :
    List (List String × β) :=
  if l.any (fun kv => kv.1 == k) then
    l.map fun kv => if kv.1 == k then (k, v) else kv
  else
    l ++ [(k, v)]

/-- Everything outside the program that a single request consumes:
the external process's exit code and the files it writes into the
scratch directory (in glob order), the wall clock, the uuid-derived
token used in generated filenames, whether the optional `requests`
library is importable, and fault injections for `subprocess.run` and
URL downloads raising. -/
structure ExtEnv where
  spawnFault : Bool
  returncode : Int
  producedFiles : List String
  now : Timestamp
  epoch : Int
  token : String
  requestsAvailable : Bool
  urlFetchOk : Bool
deriving DecidableEq, Repr

/-- The two classes of Python exception the handlers distinguish
(`except ValueError` at 748/857, `except Exception` at 750/859). -/
inductive PyExc
  | valueError (msg : String)
  | other (msg : String)
deriving DecidableEq, Repr

/-- The HTTP responses a generation endpoint can produce:
the busy rejection (`app.py` 627/761), a 400 validation response, the
500 `Generation failed` response, and `jsonify(result)` on completion. -/
inductive Response
  | busy
  | badRequest (msg : String)
  | serverError (msg : String)
  | result (r : RunResult)
deriving DecidableEq, Repr

/-- The `ok` field of the response JSON. -/
def Response.okField : Response → Bool
  | .busy => false
  | .badRequest _ => false
  | .serverError _ => false
  | .result r => r.ok

/-- The `error` field of the response JSON (absent on completed runs). -/
def Response.errorField : Response → Option String
  | .busy => some "Another job is running"
  | .badRequest m => some m
  | .serverError m => some m
  | .result _ => none

/-- The HTTP status code of the response. -/
def Response.httpStatus : Response → Nat
  | .busy => 429
  | .badRequest _ => 400
  | .serverError _ => 500
  | .result _ => 200

/-! ## `secure_name` (`app.py` lines 272–276) -/

/-- `Path(name).name`: the final path component ( `""` and `"."`
segments are dropped by `Path`'s parsing). -/
def pyPathName (cs : List Char) : List Char :=
  (((splitOnSlash cs).filter fun c => c ≠ [] ∧ c ≠ ['.']).getLastD [])

/-- `secure_name(name)` (`app.py` 272–276); `token` stands for the
`uuid.uuid4().hex[:6]` fallback suffix.  `ch.isalnum()` is modelled as
ASCII alphanumeric (all filenames produced by the app are ASCII). -/
def secure_name (name : String) (token : String) : String :=
  let stripped := pyStripChars name.data
  let base := pyPathName stripped
  let kept := base.filter fun c => c.isAlphanum || c = '.' || c = '_' || c = '-'
  let safe := ((kept.dropWhile (· = '.')).reverse.dropWhile (· = '.')).reverse
  if safe = [] then "file-" ++ token else String.mk safe

/-! ## `run_infer` (`app.py` lines 330–403), stateful -/

/-- Does a file exist at absolute path `p` in the tracked project
directories? -/
def fileExists (st : AppState) (p : List String) : Bool :=
  match p.getLast? with
  | none => false
  | some name => (assocGet st.projectFiles p.dropLast []).contains name

/-- `run_infer(args_map, env_extra)` (`app.py` 330–403): creates the
scratch directory, spawns the external process (a spawn fault models
`subprocess.run` raising, e.g. a missing interpreter — the scratch
directory already exists at that point and is then leaked), re-resolves
the project directory via `project_path` (raising `ValueError` for an
unconfined project), and runs the relocation tail `run_infer_fs`.
Command construction (`build_infer_cmd`) and log capture only feed the
untracked `logs` field and the child process, so they do not appear in
the state. -/
def run_infer (st : AppState) (a : ArgsMap) (ext : ExtEnv) :
    AppState × Except PyExc RunResult :=
  let st1 := { st with scratchCreated := st.scratchCreated + 1 }
  if ext.spawnFault then
    (st1, Except.error (PyExc.other "spawn failed"))
  else
    let st2 := { st1 with processes := st1.processes + 1 }
    match project_path st2.config.base (a.project.getD "") with
    | Except.error m => (st2, Except.error (PyExc.valueError m))
    | Except.ok projectDir =>
        let before := assocGet st2.projectFiles projectDir []
        let out := run_infer_fs ext.producedFiles ext.returncode projectDir before ext.now
        ({ st2 with projectFiles := assocSet st2.projectFiles projectDir out.2.1 },
         Except.ok out.1)

/-! ## Shared request-parameter plumbing of the two handlers -/

/-- A form/JSON field run through Python `int(...)`: absent fields fall
back to the config default; an unparsable value raises `ValueError`. -/
def getIntField (v : Option (Option Int)) (dflt : Int) : Except PyExc Int :=
  match v with
  | none => Except.ok dflt
  | some none => Except.error (PyExc.valueError "invalid literal for int() with base 10")
  | some (some n) => Except.ok n

/-- A form/JSON field run through Python `float(...)`. -/
def getDecField (v : Option (Option Dec)) (dflt : Dec) : Except PyExc Dec :=
  match v with
  | none => Except.ok dflt
  | some none => Except.error (PyExc.valueError "could not convert string to float")
  | some (some d) => Except.ok d

/-- The generation parameters both handlers extract before building
`args_map`. -/
structure RunParams where
  repo_id : String
  audio_length : Int
  batch_infer_num : Int
  use_chunked : Bool
  steps : Int
  cfg_strength : Dec
  cuda_visible_devices : String
deriving DecidableEq, Repr

/-- The common tail of both handlers once validation is done
(`app.py` 704–746 and 817–855): build `args_map`, call `run_infer`,
and append a history entry only when the result's `ok` flag is set.
`ref_prompt` is the prompt string the handler stored (stripped in the
form handler, raw in the JSON handler) and `ref_audio_hist` the
`ref_audio` value it records in the history entry. -/
def finish_generate (st : AppState) (project mode ref_mode ref_prompt : String)
    (ref_audio_path ref_audio_hist lrc_path : Option String)
    (ps : RunParams) (project_dir : List String) (ext : ExtEnv) :
    AppState × Except PyExc Response :=
  let args : ArgsMap :=
    { project := some project
      mode := some mode
      repo_id := some ps.repo_id
      audio_length := some ps.audio_length
      batch_infer_num := some ps.batch_infer_num
      use_chunked := some ps.use_chunked
      steps := some ps.steps
      cfg_strength := some ps.cfg_strength
      ref_audio_path := ref_audio_path
      ref_prompt := if ref_audio_path.isSome then none else some ref_prompt
      lrc_path := lrc_path }
  match run_infer st args ext with
  | (st1, Except.error e) => (st1, Except.error e)
  | (st1, Except.ok res) =>
      let st2 :=
        if res.ok then
          let h := read_history (assocGet st1.ledgers project_dir LedgerFile.missing)
          let entry : HistoryEntry :=
            { ts := ext.epoch
              file := res.outfile_name
              mode := mode
              ref_mode := ref_mode
              prompt := if ref_mode = "prompt" then some ref_prompt else none
              ref_audio := ref_audio_hist
              audio_length := ps.audio_length
              repo_id := ps.repo_id
              steps := ps.steps
              cfg_strength := ps.cfg_strength
              chunked := ps.use_chunked
              batch_infer_num := ps.batch_infer_num }
          { st1 with ledgers := assocSet st1.ledgers project_dir (write_history (h ++ [entry])) }
        else st1
      (st2, Except.ok (Response.result res))

/-! ## `api_generate` (`app.py` lines 624–753): the multipart endpoint -/

/-- The multipart form of a `/api/generate` request.  Text fields are
`Option String` (`none` = absent); numeric fields follow the
`Option (Option _)` convention; `ref_audio_file` / `lrc_file` hold the
uploaded file's client filename (`none` covers both a missing part and
an empty filename, the two cases `if file and file.filename` treats
alike). -/
structure FormData where
  project : Option String := none
  mode : Option String := none
  ref_mode : Option String := none
  ref_prompt : Option String := none
  ref_audio_existing : Option String := none
  ref_audio_file : Option String := none
  lrc_file : Option String := none
  repo_id : Option String := none
  audio_length : Option (Option Int) := none
  batch_infer_num : Option (Option Int) := none
  steps : Option (Option Int) := none
  cfg_strength : Option (Option Dec) := none
  use_chunked : Option String := none
  cuda_visible_devices : Option String := none
deriving DecidableEq, Repr

/-- Parameter extraction of `api_generate` (`app.py` 680–702): simple
mode fixes `batch_infer_num = 1`, `use_chunked = False`,
`cuda_visible_devices = "0"`; advanced mode reads everything from the
form (`use_chunked` is the checkbox value `"on"`). -/
def form_params (form : FormData) (cfg : Config) (mode : String) : Except PyExc RunParams := do
  if mode = "simple" then
    let audio_length ← getIntField form.audio_length cfg.audio_length
    let steps ← getIntField form.steps cfg.steps
    let cfg_strength ← getDecField form.cfg_strength cfg.cfg_strength
    Except.ok
      { repo_id := form.repo_id.getD cfg.repo_id
        audio_length := audio_length
        batch_infer_num := 1
        use_chunked := false
        steps := steps
        cfg_strength := cfg_strength
        cuda_visible_devices := "0" }
  else
    let audio_length ← getIntField form.audio_length cfg.audio_length
    let batch_infer_num ← getIntField form.batch_infer_num cfg.batch_infer_num
    let steps ← getIntField form.steps cfg.steps
    let cfg_strength ← getDecField form.cfg_strength cfg.cfg_strength
    Except.ok
      { repo_id := form.repo_id.getD cfg.repo_id
        audio_length := audio_length
        batch_infer_num := batch_infer_num
        use_chunked := form.use_chunked = some "on"
        steps := steps
        cfg_strength := cfg_strength
        cuda_visible_devices :=
          pyOrStr (some (form.cuda_visible_devices.getD cfg.cuda_visible_devices)) "0" }

/-- Reference-input handling of `api_generate` (`app.py` 636–668).
Returns either the early 400 response, or the updated state together
with `(ref_prompt, ref_audio_path, ref_audio_existing)`. -/
def form_ref_resolution (st : AppState) (form : FormData) (project_dir : List String)
    (ext : ExtEnv) :
    AppState × Except Response (String × Option String × String) :=
  let ref_mode := form.ref_mode.getD "prompt"
  if ref_mode = "prompt" then
    let ref_prompt := pyStrip (form.ref_prompt.getD "")
    if ref_prompt = "" then
      (st, Except.error (Response.badRequest
        "Text prompt is required when prompt mode is selected"))
    else
      (st, Except.ok (ref_prompt, none, ""))
  else
    let rae := pyStrip (form.ref_audio_existing.getD "")
    let fromExisting : Option String :=
      if rae ≠ "" then
        let cand := resolveComponents project_dir ((splitOnSlash rae.data).map fun l => String.mk l)
        if project_dir.isPrefixOf cand && fileExists st cand then some (joinPath cand) else none
      else none
    match fromExisting with
    | some p => (st, Except.ok ("", some p, rae))
    | none =>
        match form.ref_audio_file with
        | some fname =>
            let saved := "uploads/ref-" ++ ext.token ++ "-" ++ String.mk (pyPathName fname.data)
            ({ st with uploads := st.uploads + 1 }, Except.ok ("", some saved, rae))
        | none =>
            (st, Except.error (Response.badRequest
              "Audio reference is required when audio mode is selected"))

/-- The `try:` block of `api_generate` (`app.py` 629–746). -/
def api_generate_body (st : AppState) (form : FormData) (ext : ExtEnv) :
    AppState × Except PyExc Response :=
  let cfg := st.config
  let project := form.project.getD cfg.active_project
  let mode := form.mode.getD "simple"
  match project_path cfg.base project with
  | Except.error m => (st, Except.error (PyExc.valueError m))
  | Except.ok project_dir =>
      match form_ref_resolution st form project_dir ext with
      | (st1, Except.error resp) => (st1, Except.ok resp)
      | (st1, Except.ok (ref_prompt, ref_audio_path, ref_audio_existing)) =>
          let (st2, lrc_path) :=
            if mode = "advanced" then
              match form.lrc_file with
              | some fname =>
                  ({ st1 with uploads := st1.uploads + 1 },
                   some ("uploads/lrc-" ++ ext.token ++ "-" ++ String.mk (pyPathName fname.data)))
              | none => (st1, none)
            else (st1, none)
          match form_params form cfg mode with
          | Except.error e => (st2, Except.error e)
          | Except.ok ps =>
              let ref_audio_hist :=
                if ref_audio_existing ≠ "" then some ref_audio_existing
                else ref_audio_path
              finish_generate st2 project mode (form.ref_mode.getD "prompt") ref_prompt
                ref_audio_path ref_audio_hist lrc_path ps project_dir ext

/-- `api_generate` (`app.py` 624–753): the Job Gate guard, the `try:`
body, the `except ValueError` / `except Exception` arms, and the
`finally: RUN_LOCK.release()`. -/
def api_generate (st : AppState) (form : FormData) (ext : ExtEnv) : AppState × Response :=
  if st.lockHeld then
    (st, Response.busy)
  else
    let st0 := { st with lockHeld := true }
    let body := api_generate_body st0 form ext
    let st1 := { body.1 with lockHeld := false }
    match body.2 with
    | Except.ok resp => (st1, resp)
    | Except.error (PyExc.valueError m) => (st1, Response.badRequest m)
    | Except.error (PyExc.other m) => (st1, Response.serverError ("Generation failed: " ++ m))

/-! ## `api_generate_json` (`app.py` lines 758–862): the JSON endpoint -/

/-- The JSON body of a `/api/generate/json` request, following the same
`Option` conventions as `FormData`.  `ref_audio_b64` / `lrc_b64` hold
the base64 payload (decoding is assumed to succeed; a payload is
relevant to the claims only through its presence). -/
structure JsonData where
  project : Option String := none
  mode : Option String := none
  repo_id : Option String := none
  audio_length : Option (Option Int) := none
  use_chunked : Option Bool := none
  batch_infer_num : Option (Option Int) := none
  steps : Option (Option Int) := none
  cfg_strength : Option (Option Dec) := none
  cuda_visible_devices : Option String := none
  ref_prompt : Option String := none
  ref_mode : Option String := none
  ref_audio_existing : Option String := none
  ref_audio_b64 : Option String := none
  ref_audio_url : Option String := none
  ref_audio_filename : Option String := none
  lrc_b64 : Option String := none
  lrc_url : Option String := none
  lrc_filename : Option String := none
deriving DecidableEq, Repr

/-- Parameter extraction of `api_generate_json` (`app.py` 771–777).
(`str(... or "")` on the device selector is the identity on strings:
a falsy string is already `""`.) -/
def json_params (d : JsonData) (cfg : Config) : Except PyExc RunParams := do
  let audio_length ← getIntField d.audio_length cfg.audio_length
  let batch_infer_num ← getIntField d.batch_infer_num cfg.batch_infer_num
  let steps ← getIntField d.steps cfg.steps
  let cfg_strength ← getDecField d.cfg_strength cfg.cfg_strength
  Except.ok
    { repo_id := d.repo_id.getD cfg.repo_id
      audio_length := audio_length
      batch_infer_num := batch_infer_num
      use_chunked := d.use_chunked.getD cfg.use_chunked
      steps := steps
      cfg_strength := cfg_strength
      cuda_visible_devices := d.cuda_visible_devices.getD cfg.cuda_visible_devices }

/-- Audio-reference resolution of `api_generate_json` (`app.py`
784–803): existing project file (through `secure_name`), then base64
payload, then URL download (rejected with 400 when `requests` is not
importable; a failing download raises and becomes a 500).  The
URL-derived filename guess (`os.path.basename(urlparse(url).path)`) is
collapsed into the `"download.bin"` fallback — no claim inspects these
generated names. -/
def json_ref_audio (st : AppState) (d : JsonData) (project_dir : List String) (ext : ExtEnv) :
    AppState × Except PyExc (Except Response String) :=
  let fromExisting : Option String :=
    if pyTruthyStr d.ref_audio_existing then
      let cand := project_dir ++ [secure_name (d.ref_audio_existing.getD "") ext.token]
      if project_dir.isPrefixOf cand && fileExists st cand then some (joinPath cand)
      else none
    else none
  match fromExisting with
  | some p => (st, Except.ok (Except.ok p))
  | none =>
      if pyTruthyStr d.ref_audio_b64 then
        ({ st with uploads := st.uploads + 1 },
         Except.ok (Except.ok
           ("uploads/" ++ secure_name (pyOrStr d.ref_audio_filename "ref.wav") ext.token)))
      else if pyTruthyStr d.ref_audio_url then
        if !ext.requestsAvailable then
          (st, Except.ok (Except.error (Response.badRequest
            "requests not installed; cannot fetch URLs")))
        else if !ext.urlFetchOk then
          (st, Except.error (PyExc.other "url fetch failed"))
        else
          ({ st with uploads := st.uploads + 1 },
           Except.ok (Except.ok
             ("uploads/" ++ secure_name (pyOrStr d.ref_audio_filename "download.bin") ext.token)))
      else
        (st, Except.ok (Except.error (Response.badRequest
          "Audio reference is required when audio mode is selected")))

/-- LRC handling of `api_generate_json` (`app.py` 809–815): base64
payload first, else URL (same `requests` availability and download
fault behavior as the audio reference). -/
def json_lrc (st : AppState) (d : JsonData) (ext : ExtEnv) :
    AppState × Except PyExc (Except Response (Option String)) :=
  if pyTruthyStr d.lrc_b64 then
    ({ st with uploads := st.uploads + 1 },
     Except.ok (Except.ok
       (some ("uploads/" ++ secure_name (pyOrStr d.lrc_filename "lyrics.lrc") ext.token))))
  else if pyTruthyStr d.lrc_url then
    if !ext.requestsAvailable then
      (st, Except.ok (Except.error (Response.badRequest
        "requests not installed; cannot fetch URLs")))
    else if !ext.urlFetchOk then
      (st, Except.error (PyExc.other "url fetch failed"))
    else
      ({ st with uploads := st.uploads + 1 },
       Except.ok (Except.ok
         (some ("uploads/" ++ secure_name (pyOrStr d.lrc_filename "download.bin") ext.token))))
  else
    (st, Except.ok (Except.ok none))

/-- The post-validation tail of `api_generate_json` (`app.py` 808–855):
LRC handling, then the shared `args_map`/`run_infer`/history tail. -/
def api_generate_json_tail (st : AppState) (d : JsonData)
    (project mode ref_mode ref_prompt : String) (ref_audio_path : Option String)
    (ps : RunParams) (project_dir : List String) (ext : ExtEnv) :
    AppState × Except PyExc Response :=
  match json_lrc st d ext with
  | (st1, Except.error e) => (st1, Except.error e)
  | (st1, Except.ok (Except.error resp)) => (st1, Except.ok resp)
  | (st1, Except.ok (Except.ok lrc_path)) =>
      let ref_audio_hist :=
        if pyTruthyStr d.ref_audio_existing then some (d.ref_audio_existing.getD "")
        else ref_audio_path
      finish_generate st1 project mode ref_mode ref_prompt ref_audio_path ref_audio_hist
        lrc_path ps project_dir ext

/-- The `try:` block of `api_generate_json` (`app.py` 763–855).
`ref_mode` defaults to `"audio"` exactly when one of the three audio
inputs is present (`app.py` 781). -/
def api_generate_json_body (st : AppState) (d : JsonData) (ext : ExtEnv) :
    AppState × Except PyExc Response :=
  let cfg := st.config
  let project := d.project.getD cfg.active_project
  let mode := d.mode.getD "advanced"
  match project_path cfg.base project with
  | Except.error m => (st, Except.error (PyExc.valueError m))
  | Except.ok project_dir =>
      match json_params d cfg with
      | Except.error e => (st, Except.error e)
      | Except.ok ps =>
          let ref_prompt := d.ref_prompt.getD ""
          let ref_mode :=
            pyOrStr d.ref_mode
              (if pyTruthyStr d.ref_audio_b64 || pyTruthyStr d.ref_audio_url ||
                  pyTruthyStr d.ref_audio_existing then "audio" else "prompt")
          if ref_mode = "audio" then
            match json_ref_audio st d project_dir ext with
            | (st1, Except.error e) => (st1, Except.error e)
            | (st1, Except.ok (Except.error resp)) => (st1, Except.ok resp)
            | (st1, Except.ok (Except.ok path)) =>
                api_generate_json_tail st1 d project mode ref_mode ref_prompt (some path)
                  ps project_dir ext
          else
            if pyStrip ref_prompt = "" then
              (st, Except.ok (Response.badRequest
                "Text prompt is required when prompt mode is selected"))
            else
              api_generate_json_tail st d project mode ref_mode ref_prompt none
                ps project_dir ext

/-- `api_generate_json` (`app.py` 758–862): the Job Gate guard, the
`try:` body, the two `except` arms, and the `finally` release —
structurally identical to `api_generate`. -/
def api_generate_json (st : AppState) (d : JsonData) (ext : ExtEnv) : AppState × Response :=
  if st.lockHeld then
    (st, Response.busy)
  else
    let st0 := { st with lockHeld := true }
    let body := api_generate_json_body st0 d ext
    let st1 := { body.1 with lockHeld := false }
    match body.2 with
    | Except.ok resp => (st1, resp)
    | Except.error (PyExc.valueError m) => (st1, Response.badRequest m)
    | Except.error (PyExc.other m) => (st1, Response.serverError ("Generation failed: " ++ m))

/-! ## Concrete fixtures used to instantiate the theorems -/

/-- `DEFAULT_CONFIG` (`app.py` 40–52), with the base directory
resolved to `/app/projects`. -/
def sampleConfig : Config where
  repo_id := "ASLP-lab/DiffRhythm-1_2"
  audio_length := 95
  batch_infer_num := 1
  use_chunked := false
  steps := 56
  cfg_strength := ⟨38, 1⟩
  cuda_visible_devices := "0"
  base := ["app", "projects"]
  active_project := "Default"

/-- A freshly started application: lock free, no projects touched. -/
def sampleState : AppState where
  lockHeld := false
  config := sampleConfig
  ledgers := []
  projectFiles := []
  processes := 0
  scratchCreated := 0
  uploads := 0

/-- The same application while another job holds the Job Gate. -/
def lockedState : AppState :=
  { sampleState with lockHeld := true }

/-- A benign external world: the tool exits 0 and writes `output.wav`. -/
def sampleExt : ExtEnv where
  spawnFault := false
  returncode := 0
  producedFiles := ["output.wav"]
  now := ⟨2026, 10, 12, 9, 5, 3⟩
  epoch := 1760000000
  token := "abcd1234"
  requestsAvailable := true
  urlFetchOk := true

/-- A minimal valid multipart request: prompt mode with a prompt. -/
def promptForm : FormData :=
  { ref_prompt := some "uplifting piano" }

/-- A minimal valid JSON request: prompt mode with a prompt. -/
def promptJson : JsonData :=
  { ref_prompt := some "uplifting piano" }

/-- A multipart request with neither prompt nor audio reference. -/
def emptyForm : FormData := {}

/-- A JSON request with neither prompt nor audio reference. -/
def emptyJson : JsonData := {}

/-!
# Theorems

One theorem per claim of the specification, in claim order, each with a
witness instantiation where the theorem carries hypotheses.
-/

/-- Claim C1: every generation request that acquires the Job Gate lock
(`api_generate` or `api_generate_json`) releases it before terminating,
on every exit path — success, validation failure, process failure, and
unexpected fault alike (the `finally:` arm runs regardless of how the
`try:` block exits). -/
theorem claim_C1_lock_released (st : AppState) (form : FormData) (d : JsonData)
    (ext ext' : ExtEnv) (hlock : st.lockHeld = false) :
    (api_generate st form ext).1.lockHeld = false ∧
    (api_generate_json st d ext').1.lockHeld = false := by
  constructor
  · unfold api_generate
    rw [hlock]
    simp only [Bool.false_eq_true, if_false]
    split <;> rfl
  · unfold api_generate_json
    rw [hlock]
    simp only [Bool.false_eq_true, if_false]
    split <;> rfl

/-- Witness for C1 at a concrete request. -/
theorem claim_C1_lock_released_witness :
    (api_generate sampleState promptForm sampleExt).1.lockHeld = false ∧
    (api_generate_json sampleState promptJson sampleExt).1.lockHeld = false :=
  claim_C1_lock_released sampleState promptForm promptJson sampleExt sampleExt rfl

/-- Claim C2: while the Job Gate lock is held, a second generation
request on either endpoint is rejected immediately with the distinct
busy signal — `ok: false`, error `"Another job is running"`, HTTP 429 —
and the rejected request leaves the entire application state untouched:
no process spawned, no scratch directory created, no project, history,
or configuration state mutated. -/
theorem claim_C2_busy_rejection (st : AppState) (form : FormData) (d : JsonData)
    (ext ext' : ExtEnv) (hlock : st.lockHeld = true) :
    api_generate st form ext = (st, Response.busy) ∧
    api_generate_json st d ext' = (st, Response.busy) ∧
    Response.busy.okField = false ∧
    Response.busy.errorField = some "Another job is running" ∧
    Response.busy.httpStatus = 429 := by
  refine ⟨?_, ?_, rfl, rfl, rfl⟩
  · unfold api_generate
    rw [hlock]
    rfl
  · unfold api_generate_json
    rw [hlock]
    rfl

/-- Witness for C2 at a concrete request against a held lock. -/
theorem claim_C2_busy_rejection_witness :
    api_generate lockedState promptForm sampleExt = (lockedState, Response.busy) ∧
    api_generate_json lockedState promptJson sampleExt = (lockedState, Response.busy) ∧
    Response.busy.okField = false ∧
    Response.busy.errorField = some "Another job is running" ∧
    Response.busy.httpStatus = 429 :=
  claim_C2_busy_rejection lockedState promptForm promptJson sampleExt sampleExt rfl

/-- `str(float(x))` always renders a decimal point. -/
theorem dot_mem_dec_str (d : Dec) : '.' ∈ (Dec.str d).data := by
  unfold Dec.str
  split
  · show '.' ∈ (toString d.mant).data ++ ['.', '0']
    simp
  · show '.' ∈ (if d.mant < 0 then ['-'] else []) ++ _ ++ ['.'] ++ _
    simp

/-- Claim C3: for every validated job request (both handlers always
populate `steps` and `cfg_strength`, and validation guarantees that an
audio reference or a nonempty prompt is set), the argument vector that
`build_infer_cmd` hands the external tool — everything after the
interpreter and script path — is exactly, in order: `--output-dir`,
`--audio-length`, `--repo-id`, then `--ref-audio-path` if an audio
reference is set else `--ref-prompt`, then `--lrc-path` when a lyrics
file is provided, then `--chunked` present iff the chunked boolean is
true, then `--batch-infer-num`, `--steps`, and `--cfg-strength` with
the strength formatted as a floating value (it always carries a decimal
point, never an integer-truncated form). -/
theorem claim_C3_command_vector (pythonBin inferScript : String) (a : ArgsMap)
    (tmp : String) (s : Int) (c : Dec)
    (hs : a.steps = some s) (hc : a.cfg_strength = some c)
    (href : (pyTruthyStr a.ref_audio_path || pyTruthyStr a.ref_prompt) = true) :
    (build_infer_cmd pythonBin inferScript a tmp).drop 2 =
      ["--output-dir", tmp,
       "--audio-length", toString (a.audio_length.getD 95),
       "--repo-id", a.repo_id.getD "ASLP-lab/DiffRhythm-1_2"]
      ++ (if pyTruthyStr a.ref_audio_path then
            ["--ref-audio-path", a.ref_audio_path.getD ""]
          else
            ["--ref-prompt", a.ref_prompt.getD ""])
      ++ (if pyTruthyStr a.lrc_path then ["--lrc-path", a.lrc_path.getD ""] else [])
      ++ (if a.use_chunked.getD false then ["--chunked"] else [])
      ++ ["--batch-infer-num", toString (a.batch_infer_num.getD 1),
          "--steps", toString s,
          "--cfg-strength", Dec.str c] ∧
    '.' ∈ (Dec.str c).data := by
  refine ⟨?_, dot_mem_dec_str c⟩
  unfold build_infer_cmd
  rw [hs, hc]
  by_cases ha : pyTruthyStr a.ref_audio_path
  · simp [ha]
  · have hp : pyTruthyStr a.ref_prompt = true := by
      cases hpp : pyTruthyStr a.ref_prompt
      · rw [hpp] at href
        simp [ha] at href
      · rfl
    simp [ha, hp]

/-- Witness for C3: the spec's example request (`§8`), advanced flags. -/
theorem claim_C3_command_vector_witness :
    (build_infer_cmd "python" "infer/infer.py"
        { repo_id := some "ASLP-lab/DiffRhythm-1_2", audio_length := some 95,
          batch_infer_num := some 1, use_chunked := some true, steps := some 56,
          cfg_strength := some ⟨38, 1⟩, ref_prompt := some "uplifting piano",
          lrc_path := some "uploads/l.lrc" } "tmp/run-1").drop 2 =
      ["--output-dir", "tmp/run-1",
       "--audio-length", "95",
       "--repo-id", "ASLP-lab/DiffRhythm-1_2",
       "--ref-prompt", "uplifting piano",
       "--lrc-path", "uploads/l.lrc",
       "--chunked",
       "--batch-infer-num", "1",
       "--steps", "56",
       "--cfg-strength", "3.8"] ∧
    '.' ∈ (Dec.str ⟨38, 1⟩).data := by
  have h := claim_C3_command_vector "python" "infer/infer.py"
    { repo_id := some "ASLP-lab/DiffRhythm-1_2", audio_length := some 95,
      batch_infer_num := some 1, use_chunked := some true, steps := some 56,
      cfg_strength := some ⟨38, 1⟩, ref_prompt := some "uplifting piano",
      lrc_path := some "uploads/l.lrc" } "tmp/run-1" 56 ⟨38, 1⟩ rfl rfl rfl
  exact ⟨by rw [h.1]; rfl, h.2⟩

/-- Claim C4: a run is successful (`ok = true`) iff the external
process exited 0 **and** an artifact was found in the scratch
directory; a run that exits 0 without producing an artifact is
unsuccessful, and a non-zero exit status receives no treatment beyond
being surfaced verbatim in the result's `returncode`. -/
theorem claim_C4_success_iff_exit0_and_artifact (files : List String) (rc : Int)
    (pd pf : List String) (t : Timestamp) :
    ((run_infer_fs files rc pd pf t).1.ok = true ↔
      (rc = 0 ∧ (find_src files).isSome = true)) ∧
    (run_infer_fs files rc pd pf t).1.returncode = rc := by
  unfold run_infer_fs
  cases h : find_src files <;> simp [h]

/-- A digit character produced from a residue mod 10. -/
theorem digitChar_mod_isDigit (n : Nat) : (Nat.digitChar (n % 10)).isDigit = true := by
  have h : n % 10 < 10 := Nat.mod_lt _ (by norm_num)
  set k := n % 10 with hk
  interval_cases k <;> rfl

/-- Every character of a formatted timestamp is a digit or the dash. -/
theorem timestamp_str_shape (t : Timestamp) :
    ∀ c ∈ (timestamp_str t).data, c.isDigit = true ∨ c = '-' := by
  intro c hc
  simp only [timestamp_str, pad4, pad2, List.cons_append, List.nil_append,
    List.mem_cons, List.not_mem_nil, or_false] at hc
  rcases hc with rfl | rfl | rfl | rfl | rfl | rfl | rfl | rfl | rfl | rfl | rfl | rfl |
    rfl | rfl | rfl <;>
    first
      | exact Or.inl (digitChar_mod_isDigit _)
      | exact Or.inr rfl

/-- The relocation source really is found under the C6 hypothesis. -/
theorem find_src_isSome (files : List String)
    (h : files.contains "output.wav" = true ∨ ∃ f ∈ files, f.endsWith ".wav" = true) :
    (find_src files).isSome = true := by
  unfold find_src
  rcases h with h | ⟨f, hf, hw⟩
  · have hmem : "output.wav" ∈ files := by simpa using h
    simp [hmem]
  · by_cases hcon : "output.wav" ∈ files
    · simp [hcon]
    · have hmem : f ∈ files.filter (fun g => g.endsWith ".wav") :=
        List.mem_filter.mpr ⟨hf, hw⟩
      have hcon2 : ¬(files.contains "output.wav" = true) := by simpa using hcon
      rw [if_neg hcon2]
      cases hm : files.filter (fun g => g.endsWith ".wav") with
      | nil => rw [hm] at hmem; cases hmem
      | cons g gs => simp

/-- Claim C6: when the scratch directory holds a file named by the
fixed convention `output.wav` — or, failing that, at least one file
with the `.wav` extension — exactly one file is moved into the project
directory, under the canonical name `output-<YYYYMMDD-HHMMSS>.wav`
(eight digits, a dash, six digits), and the scratch directory is
removed afterward regardless of outcome (it is removed even when no
artifact is found at all). -/
theorem claim_C6_artifact_relocation (files : List String) (rc : Int)
    (pd pf : List String) (t : Timestamp)
    (h : files.contains "output.wav" = true ∨ ∃ f ∈ files, f.endsWith ".wav" = true) :
    (run_infer_fs files rc pd pf t).2.1 =
      pf ++ ["output-" ++ timestamp_str t ++ ".wav"] ∧
    (run_infer_fs files rc pd pf t).1.outfile_name =
      "output-" ++ timestamp_str t ++ ".wav" ∧
    (run_infer_fs files rc pd pf t).2.2 = true ∧
    (∀ files2, (run_infer_fs files2 rc pd pf t).2.2 = true) ∧
    (∀ c ∈ (timestamp_str t).data, c.isDigit = true ∨ c = '-') := by
  have hsome := find_src_isSome files h
  cases hs : find_src files with
  | none => rw [hs] at hsome; cases hsome
  | some f =>
      refine ⟨?_, ?_, ?_, ?_, timestamp_str_shape t⟩
      · unfold run_infer_fs; rw [hs]
      · unfold run_infer_fs; rw [hs]
      · unfold run_infer_fs; rw [hs]
      · intro files2
        unfold run_infer_fs
        cases find_src files2 <;> rfl

/-- Witness for C6: a scratch directory holding `output.wav`. -/
theorem claim_C6_artifact_relocation_witness :
    (run_infer_fs ["output.wav"] 0 ["app", "projects", "Default"] []
        ⟨2026, 10, 12, 9, 5, 3⟩).2.1 =
      [] ++ ["output-" ++ timestamp_str ⟨2026, 10, 12, 9, 5, 3⟩ ++ ".wav"] ∧
    (run_infer_fs ["output.wav"] 0 ["app", "projects", "Default"] []
        ⟨2026, 10, 12, 9, 5, 3⟩).1.outfile_name =
      "output-" ++ timestamp_str ⟨2026, 10, 12, 9, 5, 3⟩ ++ ".wav" ∧
    (run_infer_fs ["output.wav"] 0 ["app", "projects", "Default"] []
        ⟨2026, 10, 12, 9, 5, 3⟩).2.2 = true ∧
    (∀ files2, (run_infer_fs files2 0 ["app", "projects", "Default"] []
        ⟨2026, 10, 12, 9, 5, 3⟩).2.2 = true) ∧
    (∀ c ∈ (timestamp_str ⟨2026, 10, 12, 9, 5, 3⟩).data, c.isDigit = true ∨ c = '-') :=
  claim_C6_artifact_relocation ["output.wav"] 0 ["app", "projects", "Default"] []
    ⟨2026, 10, 12, 9, 5, 3⟩ (Or.inl rfl)

/-- Claim C7: for every project-identifier string, path resolution
(`project_path` and `project_path_no_create` alike) either raises or
returns a directory confined under the configured base — the returned
component list always extends `base`.  No input, including identifiers
with `".."`, forward slashes, or backslashes, ever yields a path
outside the base. -/
theorem confinement_guard_sound (b x : List String) (e : String) (r : List String)
    (h : (if b.isPrefixOf x then Except.ok x else Except.error e) = Except.ok r) :
    b <+: r := by
  by_cases hb : b.isPrefixOf x = true
  · rw [if_pos hb] at h
    cases h
    exact List.isPrefixOf_iff_prefix.mp hb
  · rw [if_neg hb] at h
    cases h

theorem claim_C7_path_confinement (base : List String) (project : String)
    (p q : List String) :
    (project_path base project = Except.ok p → base <+: p) ∧
    (project_path_no_create base project = Except.ok q → base <+: q) := by
  constructor
  · intro h
    unfold project_path at h
    exact confinement_guard_sound _ _ _ _ h
  · intro h
    unfold project_path_no_create at h
    exact confinement_guard_sound _ _ _ _ h

/-- Witness for C7 at a traversal attempt (`"../../etc"` resolves to a
directory under the base, never outside it). -/
theorem claim_C7_path_confinement_witness :
    ["app", "projects"] <+: ["app", "projects", "etc"] ∧
    ["app", "projects"] <+: ["app", "projects", "Default"] := by
  constructor
  · exact (claim_C7_path_confinement ["app", "projects"] "../../etc"
      ["app", "projects", "etc"] ["app", "projects", "etc"]).1 (by rfl)
  · exact (claim_C7_path_confinement ["app", "projects"] "..\\.."
      ["app", "projects", "Default"] ["app", "projects", "Default"]).2 (by rfl)

/-- Reading after one inline handler append sees the old entries plus
the new one. -/
theorem read_append_history (f : LedgerFile) (e : HistoryEntry) :
    read_history (append_history f e) = read_history f ++ [e] := rfl

/-- Folding the handlers' append over a ledger appends to its content. -/
theorem read_foldl_append_history (entries : List HistoryEntry) (f : LedgerFile) :
    read_history (entries.foldl append_history f) = read_history f ++ entries := by
  induction entries generalizing f with
  | nil => simp
  | cons e es ih =>
      rw [List.foldl_cons, ih, read_append_history, List.append_assoc]
      rfl

/-- Claim C8: appending `N` history entries to a project ledger and
then reading it yields exactly those `N` entries in insertion order
(starting from a fresh — missing — ledger file; starting from an
arbitrary ledger, the read yields the previous content followed by the
appended entries), and each append rewrites the file in full as the
previously stored sequence plus the new entry. -/
theorem claim_C8_history_round_trip (entries : List HistoryEntry) (f : LedgerFile)
    (e : HistoryEntry) :
    read_history (entries.foldl append_history LedgerFile.missing) = entries ∧
    read_history (entries.foldl append_history f) = read_history f ++ entries ∧
    append_history f e = write_history (read_history f ++ [e]) := by
  refine ⟨?_, read_foldl_append_history entries f, rfl⟩
  rw [read_foldl_append_history]
  rfl

/-- Claim C9 (refuted — recorded as a code bug): `write_history`
(`app.py` 241–242) rewrites `history.json` by a single truncating
in-place write (`Path.write_text` opens the file with mode `"w"`);
its operation trace contains **no** write-to-a-separate-location and
**no** atomic replacement, contradicting the required
write-then-atomically-replace discipline: a concurrent reader can
observe a truncated history file. -/
theorem claim_C9_truncate_in_place (p : List String) (items : List HistoryEntry) :
    write_history_ops p items =
      [FsWriteOp.truncateInPlace (p ++ ["history.json"]) items] ∧
    (write_history_ops p items).countP
      (fun op => match op with
        | FsWriteOp.atomicReplace _ _ => true
        | FsWriteOp.writeNewFile _ _ => true
        | FsWriteOp.truncateInPlace _ _ => false) = 0 := by
  exact ⟨rfl, rfl⟩

/-- Parameter extraction only ever raises `ValueError`. -/
theorem json_params_error_is_valueError (d : JsonData) (cfg : Config) (e : PyExc)
    (h : json_params d cfg = Except.error e) : ∃ m, e = PyExc.valueError m := by
  rcases d with ⟨_, _, _, (_ | (_ | _)), _, (_ | (_ | _)), (_ | (_ | _)), (_ | (_ | _))⟩ <;>
    simp [json_params, getIntField, getDecField, Bind.bind, Except.bind] at h <;>
    exact ⟨_, h.symm⟩

/-- With the prompt empty and no audio reference, the multipart body
rejects without touching the state: it either raises `ValueError`
(project-path validation) or returns an early 400. -/
theorem form_body_rejects (st : AppState) (form : FormData) (ext : ExtEnv)
    (hp : pyStrip (form.ref_prompt.getD "") = "")
    (he : pyStrip (form.ref_audio_existing.getD "") = "")
    (hf : form.ref_audio_file = none) :
    ∃ m, api_generate_body st form ext = (st, Except.error (PyExc.valueError m)) ∨
         api_generate_body st form ext = (st, Except.ok (Response.badRequest m)) := by
  cases hpp : project_path st.config.base (form.project.getD st.config.active_project) with
  | error m =>
      refine ⟨m, Or.inl ?_⟩
      simp only [api_generate_body, hpp]
  | ok pd =>
      by_cases hrm : form.ref_mode.getD "prompt" = "prompt"
      · refine ⟨"Text prompt is required when prompt mode is selected", Or.inr ?_⟩
        simp only [api_generate_body, hpp]
        simp [form_ref_resolution, hrm, hp]
      · refine ⟨"Audio reference is required when audio mode is selected", Or.inr ?_⟩
        simp only [api_generate_body, hpp]
        simp [form_ref_resolution, hrm, he, hf]

/-- With the prompt empty and every audio input absent, the JSON body
rejects without touching the state. -/
theorem json_body_rejects (st : AppState) (d : JsonData) (ext : ExtEnv)
    (hjp : pyStrip (d.ref_prompt.getD "") = "")
    (hje : pyTruthyStr d.ref_audio_existing = false)
    (hjb : pyTruthyStr d.ref_audio_b64 = false)
    (hju : pyTruthyStr d.ref_audio_url = false) :
    ∃ m, api_generate_json_body st d ext = (st, Except.error (PyExc.valueError m)) ∨
         api_generate_json_body st d ext = (st, Except.ok (Response.badRequest m)) := by
  cases hpp : project_path st.config.base (d.project.getD st.config.active_project) with
  | error m =>
      refine ⟨m, Or.inl ?_⟩
      simp only [api_generate_json_body, hpp]
  | ok pd =>
      cases hps : json_params d st.config with
      | error e =>
          obtain ⟨m, rfl⟩ := json_params_error_is_valueError d st.config e hps
          refine ⟨m, Or.inl ?_⟩
          simp only [api_generate_json_body, hpp, hps]
      | ok ps =>
          by_cases hrm : pyOrStr d.ref_mode "prompt" = "audio"
          · refine ⟨"Audio reference is required when audio mode is selected", Or.inr ?_⟩
            simp only [api_generate_json_body, hpp, hps]
            simp [hje, hjb, hju, hrm, json_ref_audio]
          · refine ⟨"Text prompt is required when prompt mode is selected", Or.inr ?_⟩
            simp only [api_generate_json_body, hpp, hps]
            simp [hje, hjb, hju, hrm, hjp]

/-- Claim C5: a job request in which both the text prompt and the
reference-audio input are unset or empty is rejected by either endpoint
with a validation error (HTTP 400, `ok: false`) and the application
state is left exactly as it was — in particular no external process is
spawned and no scratch directory or artifact is created. -/
theorem claim_C5_empty_reference_rejected (st : AppState) (form : FormData)
    (d : JsonData) (ext ext' : ExtEnv) (hlock : st.lockHeld = false)
    (hp : pyStrip (form.ref_prompt.getD "") = "")
    (he : pyStrip (form.ref_audio_existing.getD "") = "")
    (hf : form.ref_audio_file = none)
    (hjp : pyStrip (d.ref_prompt.getD "") = "")
    (hje : pyTruthyStr d.ref_audio_existing = false)
    (hjb : pyTruthyStr d.ref_audio_b64 = false)
    (hju : pyTruthyStr d.ref_audio_url = false) :
    ((api_generate st form ext).1 = st ∧
     (api_generate st form ext).2.httpStatus = 400 ∧
     (api_generate st form ext).2.okField = false) ∧
    ((api_generate_json st d ext').1 = st ∧
     (api_generate_json st d ext').2.httpStatus = 400 ∧
     (api_generate_json st d ext').2.okField = false) := by
  obtain ⟨lock, cfg, led, pfs, pr, sc, up⟩ := st
  replace hlock : lock = false := hlock
  subst hlock
  constructor
  · obtain ⟨m, hb⟩ :=
      form_body_rejects ⟨true, cfg, led, pfs, pr, sc, up⟩ form ext hp he hf
    have hform : api_generate ⟨false, cfg, led, pfs, pr, sc, up⟩ form ext =
        (⟨false, cfg, led, pfs, pr, sc, up⟩, Response.badRequest m) := by
      rcases hb with hb | hb <;> (unfold api_generate; simp [hb])
    rw [hform]
    exact ⟨rfl, rfl, rfl⟩
  · obtain ⟨m, hb⟩ :=
      json_body_rejects ⟨true, cfg, led, pfs, pr, sc, up⟩ d ext' hjp hje hjb hju
    have hjson : api_generate_json ⟨false, cfg, led, pfs, pr, sc, up⟩ d ext' =
        (⟨false, cfg, led, pfs, pr, sc, up⟩, Response.badRequest m) := by
      rcases hb with hb | hb <;> (unfold api_generate_json; simp [hb])
    rw [hjson]
    exact ⟨rfl, rfl, rfl⟩

/-- Witness for C5: concrete empty requests against a fresh state. -/
theorem claim_C5_empty_reference_rejected_witness :
    ((api_generate sampleState emptyForm sampleExt).1 = sampleState ∧
     (api_generate sampleState emptyForm sampleExt).2.httpStatus = 400 ∧
     (api_generate sampleState emptyForm sampleExt).2.okField = false) ∧
    ((api_generate_json sampleState emptyJson sampleExt).1 = sampleState ∧
     (api_generate_json sampleState emptyJson sampleExt).2.httpStatus = 400 ∧
     (api_generate_json sampleState emptyJson sampleExt).2.okField = false) :=
  claim_C5_empty_reference_rejected sampleState emptyForm emptyJson sampleExt sampleExt
    rfl rfl rfl rfl rfl rfl rfl rfl

/-- Resolving the canonical `"Default"` project identifier always
succeeds and lands directly under the base. -/
theorem project_path_default (base : List String) :
    project_path base "Default" = Except.ok (base ++ ["Default"]) := by
  show (if base.isPrefixOf (resolveComponents base ["Default"]) then
          Except.ok (resolveComponents base ["Default"])
        else Except.error "Invalid project path") = Except.ok (base ++ ["Default"])
  have h1 : resolveComponents base ["Default"] = base ++ ["Default"] := by
    simp [resolveComponents]
  rw [h1, if_pos (List.isPrefixOf_iff_prefix.mpr (List.prefix_append base ["Default"]))]

/-- Overwriting a key in the association list makes lookups of that key
return the new value. -/
theorem find_map_overwrite {β : Type} (l : List (List String × β)) (k : List String)
    (v : β) (h : l.any (fun kv => kv.1 == k) = true) :
    (l.map fun kv => if kv.1 == k then (k, v) else kv).find? (fun kv => kv.1 == k) =
      some (k, v) := by
  induction l with
  | nil => cases h
  | cons kv tl ih =>
      rw [List.map_cons, List.find?_cons]
      by_cases hk : (kv.1 == k) = true
      · rw [if_pos hk]
        have hkk : ((k, v).1 == k) = true := by simp
        simp only [hkk]
      · have hk' : (kv.1 == k) = false := Bool.eq_false_iff.mpr hk
        rw [if_neg hk]
        simp only [hk']
        have htl : tl.any (fun kv => kv.1 == k) = true := by
          have h2 := h
          rw [List.any_cons, hk', Bool.false_or] at h2
          exact h2
        exact ih htl

/-- Updating an association list and reading the same key back yields
the stored value. -/
theorem assocGet_assocSet {β : Type} (l : List (List String × β)) (k : List String)
    (v : β) (dflt : β) : assocGet (assocSet l k v) k dflt = v := by
  unfold assocGet assocSet
  by_cases h : l.any (fun kv => kv.1 == k) = true
  · rw [if_pos h, find_map_overwrite l k v h]
  · rw [if_neg h]
    have h1 : l.find? (fun kv => kv.1 == k) = none := by
      refine List.find?_eq_none.mpr ?_
      intro kv hkv hp
      exact h (List.any_eq_true.mpr ⟨kv, hkv, hp⟩)
    rw [List.find?_append, h1]
    simp [List.find?_cons]

/-- Claim C10: when the external process exits non-zero but produced an
artifact in the scratch directory, `api_generate` still moves the
artifact into the project directory, the returned result carries its
non-empty final path and filename while `ok` is `false`, and no history
entry is appended for the run. -/
theorem claim_C10_failed_run_keeps_artifact (st : AppState) (prompt : String)
    (rc : Int) (files : List String) (t : Timestamp) (ep : Int) (tok : String)
    (ra uf : Bool)
    (hlock : st.lockHeld = false)
    (hprompt : ¬pyStrip prompt = "")
    (hrc : rc ≠ 0)
    (hfound : (find_src files).isSome = true) :
    (api_generate st { project := some "Default", ref_prompt := some prompt }
        ⟨false, rc, files, t, ep, tok, ra, uf⟩).2 =
      Response.result
        { ok := false
          returncode := rc
          outfile := joinPath (st.config.base ++ ["Default"] ++
            ["output-" ++ timestamp_str t ++ ".wav"])
          outfile_name := "output-" ++ timestamp_str t ++ ".wav" } ∧
    (api_generate st { project := some "Default", ref_prompt := some prompt }
        ⟨false, rc, files, t, ep, tok, ra, uf⟩).1.ledgers = st.ledgers ∧
    assocGet (api_generate st { project := some "Default", ref_prompt := some prompt }
        ⟨false, rc, files, t, ep, tok, ra, uf⟩).1.projectFiles
        (st.config.base ++ ["Default"]) [] =
      assocGet st.projectFiles (st.config.base ++ ["Default"]) [] ++
        ["output-" ++ timestamp_str t ++ ".wav"] := by
  obtain ⟨lock, cfg, led, pfs, pr, sc, up⟩ := st
  replace hlock : lock = false := hlock
  subst hlock
  obtain ⟨f, hsrc⟩ := Option.isSome_iff_exists.mp hfound
  have hpd := project_path_default cfg.base
  have hrc' : (rc == 0) = false := beq_eq_false_iff_ne.mpr hrc
  have hbody : api_generate_body ⟨true, cfg, led, pfs, pr, sc, up⟩
      { project := some "Default", ref_prompt := some prompt }
      ⟨false, rc, files, t, ep, tok, ra, uf⟩ =
      (⟨true, cfg, led,
        assocSet pfs (cfg.base ++ ["Default"])
          (assocGet pfs (cfg.base ++ ["Default"]) [] ++
            ["output-" ++ timestamp_str t ++ ".wav"]), pr + 1, sc + 1, up⟩,
       Except.ok (Response.result
         { ok := false
           returncode := rc
           outfile := joinPath (cfg.base ++ ["Default"] ++
             ["output-" ++ timestamp_str t ++ ".wav"])
           outfile_name := "output-" ++ timestamp_str t ++ ".wav" })) := by
    simp [api_generate_body, form_ref_resolution, form_params, finish_generate,
      run_infer, run_infer_fs, getIntField, getDecField, Bind.bind, Except.bind,
      hpd, hsrc, hprompt, hrc']
  have hcall : api_generate ⟨false, cfg, led, pfs, pr, sc, up⟩
      { project := some "Default", ref_prompt := some prompt }
      ⟨false, rc, files, t, ep, tok, ra, uf⟩ =
      (⟨false, cfg, led,
        assocSet pfs (cfg.base ++ ["Default"])
          (assocGet pfs (cfg.base ++ ["Default"]) [] ++
            ["output-" ++ timestamp_str t ++ ".wav"]), pr + 1, sc + 1, up⟩,
       Response.result
         { ok := false
           returncode := rc
           outfile := joinPath (cfg.base ++ ["Default"] ++
             ["output-" ++ timestamp_str t ++ ".wav"])
           outfile_name := "output-" ++ timestamp_str t ++ ".wav" }) := by
    unfold api_generate
    simp [hbody]
  rw [hcall]
  exact ⟨rfl, rfl, assocGet_assocSet pfs (cfg.base ++ ["Default"]) _ []⟩

/-- Witness for C10: exit code 1 with `output.wav` present. -/
theorem claim_C10_failed_run_keeps_artifact_witness :
    (api_generate sampleState { project := some "Default", ref_prompt := some "uplifting piano" }
        ⟨false, 1, ["output.wav"], ⟨2026, 10, 12, 9, 5, 3⟩, 1760000000, "abcd1234",
         true, true⟩).2 =
      Response.result
        { ok := false
          returncode := 1
          outfile := joinPath (sampleState.config.base ++ ["Default"] ++
            ["output-" ++ timestamp_str ⟨2026, 10, 12, 9, 5, 3⟩ ++ ".wav"])
          outfile_name := "output-" ++ timestamp_str ⟨2026, 10, 12, 9, 5, 3⟩ ++ ".wav" } ∧
    (api_generate sampleState { project := some "Default", ref_prompt := some "uplifting piano" }
        ⟨false, 1, ["output.wav"], ⟨2026, 10, 12, 9, 5, 3⟩, 1760000000, "abcd1234",
         true, true⟩).1.ledgers = sampleState.ledgers ∧
    assocGet (api_generate sampleState
        { project := some "Default", ref_prompt := some "uplifting piano" }
        ⟨false, 1, ["output.wav"], ⟨2026, 10, 12, 9, 5, 3⟩, 1760000000, "abcd1234",
         true, true⟩).1.projectFiles (sampleState.config.base ++ ["Default"]) [] =
      assocGet sampleState.projectFiles (sampleState.config.base ++ ["Default"]) [] ++
        ["output-" ++ timestamp_str ⟨2026, 10, 12, 9, 5, 3⟩ ++ ".wav"] :=
  claim_C10_failed_run_keeps_artifact sampleState "uplifting piano" 1 ["output.wav"]
    ⟨2026, 10, 12, 9, 5, 3⟩ 1760000000 "abcd1234" true true
    rfl (by decide) (by decide) rfl

end DiffRhythmGui
